import Mathlib

/-!
Shallow embedding of `app/assets/js/authmanager.js` from the GalaxyQuest
launcher, together with proofs about the credential state machine it
implements.  External collaborators (the helios-core Microsoft endpoints,
the azuriom-auth password endpoint and the Mojang session endpoints) are
modelled as oracle parameters; the configuration store (configmanager.js,
not part of the analysed sources) is modelled from the spec.  Every network
interaction is recorded in an explicit trace so that claims about which
endpoints run can be stated directly.
-/

namespace AuthManager

/-! ## External data shapes (helios-core / azuriom-auth payloads) -/

/-- Normalized Microsoft error codes (helios-core).  `OTHER n` stands for the
remaining members of the closed provider code set. -/
inductive MicrosoftErrorCode
  | UNKNOWN
  | NO_PROFILE
  | NO_XBOX_ACCOUNT
  | XBL_ERROR
  | OTHER (n : Nat)
deriving DecidableEq, Repr

/-- Displayable error produced by helios-core `microsoftErrorDisplayable`;
it carries the normalized code it was built from. -/
structure DisplayableError where
  microsoftErrorCode : MicrosoftErrorCode
deriving DecidableEq, Repr

/-- helios-core `microsoftErrorDisplayable`: wraps a normalized code for
display without changing it. -/
def microsoftErrorDisplayable (c : MicrosoftErrorCode) : DisplayableError :=
  ⟨c⟩

/-- A helios-core REST response: either `responseStatus = SUCCESS` with a
data payload, or `responseStatus = ERROR` with a normalized code. -/
inductive MicrosoftResponse (α : Type)
  | success (data : α)
  | error (microsoftErrorCode : MicrosoftErrorCode)
deriving DecidableEq, Repr

/-- OAuth access-token response payload (`accessTokenResponse.data`). -/
structure TokenPair where
  access_token : String
  refresh_token : String
  expires_in : Int
deriving DecidableEq, Repr

/-- Game-service token payload (`mcTokenResponse.data`). -/
structure MCToken where
  access_token : String
  expires_in : Int
deriving DecidableEq, Repr

/-- Player profile payload (`mcProfileResponse.data`). -/
structure MCProfile where
  id : String
  name : String
deriving DecidableEq, Repr

/-- The Microsoft endpoints used by the chained flow, as an oracle record:
one function per network round trip of `MicrosoftAuth`. -/
structure MicrosoftEndpoints where
  getAccessToken : String → Bool → MicrosoftResponse TokenPair
  getXBLToken : String → MicrosoftResponse String
  getXSTSToken : String → MicrosoftResponse String
  getMCAccessToken : String → MicrosoftResponse MCToken
  getMCProfile : String → MicrosoftResponse MCProfile

/-- `AUTH_MODE` from authmanager.js. -/
inductive AUTH_MODE
  | FULL
  | MS_REFRESH
  | MC_REFRESH
deriving DecidableEq, Repr

/-- One observable event of the flow: entering `fullMicrosoftAuthFlow` in a
given mode, or one endpoint round trip. -/
inductive NetCall
  | flowEntry (mode : AUTH_MODE)
  | oauthToken
  | xblToken
  | xstsToken
  | mcToken
  | mcProfile
deriving DecidableEq, Repr

/-- Result object of a successful `fullMicrosoftAuthFlow`.  `accessToken`
is `none` when the mode was `MC_REFRESH` (the source leaves the `accessToken`
local unassigned in that case). -/
structure FullAuthResult where
  accessToken : Option TokenPair
  accessTokenRaw : String
  xbl : String
  xsts : String
  mcToken : MCToken
  mcProfile : MCProfile
deriving DecidableEq, Repr

/-- The `if(authMode !== AUTH_MODE.MC_REFRESH) ... else ...` block of
`fullMicrosoftAuthFlow`: obtain the OAuth pair and the raw access token,
or reuse the entry code as the raw token in `MC_REFRESH` mode. -/
def oauthStep (net : MicrosoftEndpoints) (entryCode : String)
    (authMode : AUTH_MODE) :
    Except DisplayableError (Option TokenPair × String) × List NetCall :=
  if authMode ≠ AUTH_MODE.MC_REFRESH then
    match net.getAccessToken entryCode (decide (authMode = AUTH_MODE.MS_REFRESH)) with
    | MicrosoftResponse.error c =>
        (Except.error (microsoftErrorDisplayable c), [NetCall.oauthToken])
    | MicrosoftResponse.success tp =>
        (Except.ok (some tp, tp.access_token), [NetCall.oauthToken])
  else
    (Except.ok (none, entryCode), [])

/-- Steps (2)–(5) of `fullMicrosoftAuthFlow`, the straight-line sequence
after the raw OAuth access token is in hand: XBL token → XSTS token →
game-service token → profile.  Each step rejects with the normalized
displayable error of the failing endpoint and nothing after the failing
step runs. -/
def downstreamSteps (net : MicrosoftEndpoints) (accessTokenRaw : String) :
    Except DisplayableError (String × String × MCToken × MCProfile) × List NetCall :=
  match net.getXBLToken accessTokenRaw with
  | MicrosoftResponse.error c =>
      (Except.error (microsoftErrorDisplayable c), [NetCall.xblToken])
  | MicrosoftResponse.success xbl =>
    match net.getXSTSToken xbl with
    | MicrosoftResponse.error c =>
        (Except.error (microsoftErrorDisplayable c),
         [NetCall.xblToken, NetCall.xstsToken])
    | MicrosoftResponse.success xsts =>
      match net.getMCAccessToken xsts with
      | MicrosoftResponse.error c =>
          (Except.error (microsoftErrorDisplayable c),
           [NetCall.xblToken, NetCall.xstsToken, NetCall.mcToken])
      | MicrosoftResponse.success mcTok =>
        match net.getMCProfile mcTok.access_token with
        | MicrosoftResponse.error c =>
            (Except.error (microsoftErrorDisplayable c),
             [NetCall.xblToken, NetCall.xstsToken, NetCall.mcToken,
              NetCall.mcProfile])
        | MicrosoftResponse.success prof =>
            (Except.ok (xbl, xsts, mcTok, prof),
             [NetCall.xblToken, NetCall.xstsToken, NetCall.mcToken,
              NetCall.mcProfile])

/-- `fullMicrosoftAuthFlow(entryCode, authMode)`: the five-step chained
Microsoft flow — the OAuth step (skipped in `MC_REFRESH` mode) followed by
the four downstream exchanges.  Each step rejects with the normalized
displayable error of the failing endpoint; a rejected promise returned from
the `try` block is not intercepted by the surrounding `catch`, so the
normalized error reaches the caller unchanged.  The second component is the
trace of events. -/
def fullMicrosoftAuthFlow (net : MicrosoftEndpoints) (entryCode : String)
    (authMode : AUTH_MODE) :
    Except DisplayableError FullAuthResult × List NetCall :=
  match oauthStep net entryCode authMode with
  | (Except.error e, tr) => (Except.error e, NetCall.flowEntry authMode :: tr)
  | (Except.ok (accessToken, accessTokenRaw), tr) =>
    match downstreamSteps net accessTokenRaw with
    | (Except.error e, tr2) =>
        (Except.error e, NetCall.flowEntry authMode :: (tr ++ tr2))
    | (Except.ok (xbl, xsts, mcTok, prof), tr2) =>
        (Except.ok ⟨accessToken, accessTokenRaw, xbl, xsts, mcTok, prof⟩,
         NetCall.flowEntry authMode :: (tr ++ tr2))

/-- `calculateExpiryDate(nowMs, epiresInS)` from authmanager.js:
`nowMs + ((epiresInS-10)*1000)`.  No clamping of any kind. -/
def calculateExpiryDate (nowMs epiresInS : Int) : Int :=
  nowMs + (epiresInS - 10) * 1000

/-! ## Account store (configmanager.js is not among the analysed sources;
its record shapes and operations are modelled from the spec) -/

/-- Modelled from the spec: the `providerState` variant payload of a
Microsoft `AuthAccount` (`microsoft` sub-object: OAuth access token,
refresh token and adjusted expiry instant). -/
structure MicrosoftOAuthState where
  access_token : String
  refresh_token : String
  expires_at : Int
deriving DecidableEq, Repr

/-- Modelled from the spec: a persisted Microsoft `AuthAccount` record
(id, game-service token, display name, adjusted game-token expiry, and the
OAuth provider state). -/
structure MicrosoftAccount where
  uuid : String
  accessToken : String
  username : String
  expiresAt : Int
  microsoft : MicrosoftOAuthState
deriving DecidableEq, Repr

/-- Modelled from the spec: the store as seen by the Microsoft validator —
the single selected account plus a persist counter (`ConfigManager.save`
increments it; an untouched counter means no save occurred). -/
structure MsStoreState where
  selectedAccount : MicrosoftAccount
  saveCount : Nat
deriving DecidableEq, Repr

/-- Modelled from the spec: `ConfigManager.addMicrosoftAuthAccount` builds
the persisted record from the flow payloads, in the argument order of the
call sites. -/
def addMicrosoftAuthAccount (uuid accessToken name : String) (mcExpires : Int)
    (msAccessToken msRefreshToken : String) (msExpires : Int) : MicrosoftAccount :=
  { uuid := uuid, accessToken := accessToken, username := name,
    expiresAt := mcExpires,
    microsoft := { access_token := msAccessToken, refresh_token := msRefreshToken,
                   expires_at := msExpires } }

/-- Modelled from the spec: `ConfigManager.updateMicrosoftAuthAccount`
mutates the stored record with the given id in place — only token and
expiry fields change, identity fields stay stable. -/
def updateMicrosoftAuthAccount (st : MsStoreState) (uuid accessToken : String)
    (msAccessToken msRefreshToken : String) (msExpires mcExpires : Int) :
    MsStoreState :=
  if st.selectedAccount.uuid = uuid then
    { st with selectedAccount :=
        { st.selectedAccount with
          accessToken := accessToken,
          expiresAt := mcExpires,
          microsoft := { access_token := msAccessToken,
                         refresh_token := msRefreshToken,
                         expires_at := msExpires } } }
  else st

/-- Modelled from the spec: `ConfigManager.save` persists the store
(observable here as an incremented persist counter). -/
def configSave (st : MsStoreState) : MsStoreState :=
  { st with saveCount := st.saveCount + 1 }

/-! ## Operations of authmanager.js over the store -/

/-- Runtime faults of the JavaScript module that are not displayable auth
errors: a reference to an identifier the module never defines, or a property
access on an undefined value. -/
inductive JsError
  | displayable (e : DisplayableError)
  | referenceError (name : String)
  | typeError (field : String)
deriving DecidableEq, Repr

/-- `addMicrosoftAccount(authCode)`: runs the chained flow in `FULL` mode,
stamps both expiry instants with `calculateExpiryDate` at the current time
`now`, stores the record and saves.  A flow rejection propagates.  The
(unreachable in `FULL` mode) absent OAuth pair would be a JS `TypeError`
when reading `fullAuth.accessToken.access_token`. -/
def addMicrosoftAccount (net : MicrosoftEndpoints) (authCode : String)
    (now : Int) : Except JsError MicrosoftAccount × List NetCall :=
  match fullMicrosoftAuthFlow net authCode AUTH_MODE.FULL with
  | (Except.error e, tr) => (Except.error (JsError.displayable e), tr)
  | (Except.ok fullAuth, tr) =>
    match fullAuth.accessToken with
    | none => (Except.error (JsError.typeError "access_token"), tr)
    | some tp =>
        (Except.ok (addMicrosoftAuthAccount fullAuth.mcProfile.id
            fullAuth.mcToken.access_token fullAuth.mcProfile.name
            (calculateExpiryDate now fullAuth.mcToken.expires_in)
            tp.access_token tp.refresh_token
            (calculateExpiryDate now tp.expires_in)), tr)

/-- `validateSelectedMicrosoftAccount()`: two-tier expiry check over the
selected account.  Fresh game token → `true` with no network.  Game token
expired and OAuth token expired → `MS_REFRESH` flow; only game token
expired → `MC_REFRESH` flow.  Any rejection inside either `try` (including
the impossible missing OAuth pair, a `TypeError`) is caught and yields
`false` with the store untouched; on success the record is updated and
saved.  Returns (result, store after, network trace). -/
def validateSelectedMicrosoftAccount (net : MicrosoftEndpoints) (now : Int)
    (st : MsStoreState) : Bool × MsStoreState × List NetCall :=
  let current := st.selectedAccount
  let mcExpired := now ≥ current.expiresAt
  if ¬ mcExpired then
    (true, st, [])
  else
    let msExpired := now ≥ current.microsoft.expires_at
    if msExpired then
      match fullMicrosoftAuthFlow net current.microsoft.refresh_token
          AUTH_MODE.MS_REFRESH with
      | (Except.error _, tr) => (false, st, tr)
      | (Except.ok res, tr) =>
        match res.accessToken with
        | none => (false, st, tr)
        | some tp =>
            (true,
             configSave (updateMicrosoftAuthAccount st current.uuid
               res.mcToken.access_token tp.access_token tp.refresh_token
               (calculateExpiryDate now tp.expires_in)
               (calculateExpiryDate now res.mcToken.expires_in)),
             tr)
    else
      match fullMicrosoftAuthFlow net current.microsoft.access_token
          AUTH_MODE.MC_REFRESH with
      | (Except.error _, tr) => (false, st, tr)
      | (Except.ok res, tr) =>
          (true,
           configSave (updateMicrosoftAuthAccount st current.uuid
             res.mcToken.access_token current.microsoft.access_token
             current.microsoft.refresh_token current.microsoft.expires_at
             (calculateExpiryDate now res.mcToken.expires_in)),
           tr)

/-! ## Password provider (azuriom-auth / Mojang session endpoints) -/

/-- Result object of `AuthClient.login` (azuriom-auth): a status string,
the second-factor requirement flag, and the credential payload. -/
structure GalaxyQuestLoginResult where
  status : String
  requires2fa : Bool
  uuid : String
  accessToken : String
  username : String
deriving DecidableEq, Repr

/-- Modelled from the spec: the password `AuthAccount` record built by
`ConfigManager.addGalaxyQuestAuthAccount(uuid, accessToken, username,
displayName)` — no intrinsic expiry. -/
structure PasswordAccount where
  uuid : String
  accessToken : String
  username : String
  displayName : String
deriving DecidableEq, Repr

/-- `addGalaxyQuestAccount(username, password)`: first login call omits the
second-factor code; on a `pending`/`requires2fa` result the source re-invokes
login with the HARDCODED constant `twoFactorCode = ''`.  On a non-success
status it evaluates `mojangErrorDisplayable(MojangErrorCode…)`, but neither
identifier is defined in the module, so the `ReferenceError` thrown there
(re-thrown identically from the `catch` block) is what the promise rejects
with.  The login endpoint is the oracle `login u p code?`. -/
def addGalaxyQuestAccount
    (login : String → String → Option String → GalaxyQuestLoginResult)
    (username password : String) : Except JsError PasswordAccount :=
  let result := login username password none
  let result :=
    if result.status = "pending" ∧ result.requires2fa then
      let twoFactorCode := ""
      login username password (some twoFactorCode)
    else result
  if result.status ≠ "success" then
    Except.error (JsError.referenceError "MojangErrorCode")
  else
    Except.ok ⟨result.uuid, result.accessToken, result.username, result.username⟩

/-- A Mojang-session REST response: success payload or error status. -/
inductive MojangResponse (α : Type)
  | success (data : α)
  | error
deriving DecidableEq, Repr

/-- Session payload of `MojangRestAPI.refresh`. -/
structure MojangSession where
  accessToken : String
deriving DecidableEq, Repr

/-- The two Mojang session endpoints used by the password validator, as
oracles over (accessToken, clientToken). -/
structure MojangEndpoints where
  validateSession : String → String → MojangResponse Bool
  refreshSession : String → String → MojangResponse MojangSession

/-- One observable endpoint round trip of the password validator. -/
inductive MojangCall
  | validateCall
  | refreshCall
deriving DecidableEq, Repr

/-- Modelled from the spec: the store as seen by the password validator —
selected password account, client token and persist counter. -/
structure MojangStoreState where
  selectedAccount : PasswordAccount
  clientToken : String
  saveCount : Nat
deriving DecidableEq, Repr

/-- `validateSelectedMojangAccount()`: session-validate the stored token; if
reported invalid, one refresh attempt (update + save on success → `true`,
`false` on refresh failure); if reported valid, `true`.  When the validate
response status is not SUCCESS the function body falls through its only
`if` and the promise resolves with `undefined` (`none` here).  Returns
(result, store after, endpoint trace). -/
def validateSelectedMojangAccount (net : MojangEndpoints)
    (st : MojangStoreState) : Option Bool × MojangStoreState × List MojangCall :=
  let current := st.selectedAccount
  match net.validateSession current.accessToken st.clientToken with
  | MojangResponse.success isValid =>
    if ¬ isValid then
      match net.refreshSession current.accessToken st.clientToken with
      | MojangResponse.success session =>
          (some true,
           { st with
             selectedAccount := { current with accessToken := session.accessToken },
             saveCount := st.saveCount + 1 },
           [MojangCall.validateCall, MojangCall.refreshCall])
      | MojangResponse.error =>
          (some false, st, [MojangCall.validateCall, MojangCall.refreshCall])
    else
      (some true, st, [MojangCall.validateCall])
  | MojangResponse.error => (none, st, [MojangCall.validateCall])

/-! ## Top-level dispatch -/

/-- The selected account as read back from the store: its `type` tag is
`'microsoft'` for Microsoft accounts and a non-`'microsoft'` tag (modelled
from the spec's `Password` provider) otherwise. -/
inductive SelectedAccount
  | microsoftAccount (a : MicrosoftAccount)
  | galaxyquestAccount (a : PasswordAccount)
deriving DecidableEq, Repr

/-- `validateSelected()`: dispatches on `current.type === 'microsoft'`.
The Microsoft branch awaits `validateSelectedMicrosoftAccount`.  The other
branch calls `validateSelectedGalaxyquestAccount()`, an identifier defined
NOWHERE in the module (the password validator is named
`validateSelectedMojangAccount`), so the promise rejects with a
`ReferenceError` instead of resolving a boolean. -/
def validateSelected (net : MicrosoftEndpoints) (now : Int)
    (sel : SelectedAccount) (saveCount : Nat) :
    Except JsError (Bool × MsStoreState × List NetCall) :=
  match sel with
  | SelectedAccount.microsoftAccount a =>
      Except.ok (validateSelectedMicrosoftAccount net now ⟨a, saveCount⟩)
  | SelectedAccount.galaxyquestAccount _ =>
      Except.error (JsError.referenceError "validateSelectedGalaxyquestAccount")

/-! ## Concrete oracle instantiations and sample records, used when
evaluating the theorems on explicit inputs -/

/-- A sample OAuth token pair with a one hour lifetime. -/
def demoPair : TokenPair := ⟨"msAccess", "msRefresh", 3600⟩

/-- A sample game-service token with a one day lifetime. -/
def demoMcToken : MCToken := ⟨"mcAccess", 86400⟩

/-- A sample player profile. -/
def demoProfile : MCProfile := ⟨"uuid-1", "Player"⟩

/-- Endpoints on which every exchange succeeds. -/
def demoNet : MicrosoftEndpoints :=
  { getAccessToken := fun _ _ => MicrosoftResponse.success demoPair,
    getXBLToken := fun _ => MicrosoftResponse.success "xblTok",
    getXSTSToken := fun _ => MicrosoftResponse.success "xstsTok",
    getMCAccessToken := fun _ => MicrosoftResponse.success demoMcToken,
    getMCProfile := fun _ => MicrosoftResponse.success demoProfile }

/-- Endpoints whose OAuth token exchange fails. -/
def netFailOauth : MicrosoftEndpoints :=
  { demoNet with
    getAccessToken := fun _ _ => MicrosoftResponse.error MicrosoftErrorCode.UNKNOWN }

/-- Endpoints whose XSTS exchange (step 3) fails with a distinctive code. -/
def netFailXsts : MicrosoftEndpoints :=
  { demoNet with
    getXSTSToken := fun _ => MicrosoftResponse.error (MicrosoftErrorCode.OTHER 7) }

/-- Endpoints on which every exchange succeeds but the game-service token
lifetime (10 s) does not exceed the expiry margin. -/
def demoNetShortLived : MicrosoftEndpoints :=
  { demoNet with
    getMCAccessToken := fun _ => MicrosoftResponse.success ⟨"mcAccess", 10⟩ }

/-- A stored Microsoft account whose game-service token and OAuth token are
both already expired at any `now ≥ 0`. -/
def demoStaleAccount : MicrosoftAccount :=
  { uuid := "uuid-1", accessToken := "mc0", username := "Player",
    expiresAt := 0,
    microsoft := { access_token := "msA0", refresh_token := "msR0",
                   expires_at := 0 } }

/-- Store holding `demoStaleAccount`. -/
def demoStaleStore : MsStoreState := ⟨demoStaleAccount, 0⟩

/-- A stored Microsoft account whose game-service token is expired but whose
OAuth token is still valid at small `now ≥ 0`. -/
def demoMcStaleAccount : MicrosoftAccount :=
  { demoStaleAccount with
    microsoft := { access_token := "msA0", refresh_token := "msR0",
                   expires_at := 3590000 } }

/-- Store holding `demoMcStaleAccount`. -/
def demoMcStaleStore : MsStoreState := ⟨demoMcStaleAccount, 0⟩

/-- The account `addMicrosoftAccount demoNetShortLived "code" 0` persists:
its game-token expiry is stamped `calculateExpiryDate 0 10 = 0`. -/
def msAcctShort : MicrosoftAccount :=
  { uuid := "uuid-1", accessToken := "mcAccess", username := "Player",
    expiresAt := 0,
    microsoft := { access_token := "msAccess", refresh_token := "msRefresh",
                   expires_at := 3590000 } }

/-- The chained-flow result produced by `demoNet` in `FULL` mode. -/
def demoFullResult : FullAuthResult :=
  ⟨some demoPair, "msAccess", "xblTok", "xstsTok", demoMcToken, demoProfile⟩

/-- The trace of a fully successful chained flow in `FULL` mode. -/
def demoFullTrace : List NetCall :=
  [NetCall.flowEntry AUTH_MODE.FULL, NetCall.oauthToken, NetCall.xblToken,
   NetCall.xstsToken, NetCall.mcToken, NetCall.mcProfile]

/-- A sample password account. -/
def demoPasswordAccount : PasswordAccount := ⟨"uuid-2", "tok", "alice", "alice"⟩

/-- Mojang session endpoints on which the validate call itself fails. -/
def mojangNetFault : MojangEndpoints :=
  { validateSession := fun _ _ => MojangResponse.error,
    refreshSession := fun _ _ => MojangResponse.error }

/-- Store holding `demoPasswordAccount` for the password validator. -/
def demoMojangStore : MojangStoreState := ⟨demoPasswordAccount, "clientTok", 0⟩

/-- Password-login oracle with a second-factor challenge: the first call
(no code) reports `pending`/`requires2fa`; a resumed call succeeds exactly
when the code is `123456`. -/
def login2fa : String → String → Option String → GalaxyQuestLoginResult :=
  fun u _ code =>
    match code with
    | none => ⟨"pending", true, "uuid-3", "", u⟩
    | some c =>
        if c = "123456" then ⟨"success", false, "uuid-3", "tok3", u⟩
        else ⟨"error", false, "", "", u⟩

end AuthManager

namespace AuthManager

/-! ## Helper lemmas about the chained flow and the validator branches -/

/-- The OAuth step in `MC_REFRESH` mode: no endpoint call, no OAuth pair,
the entry code is reused as the raw access token. -/
theorem oauthStep_mc (net : MicrosoftEndpoints) (entry : String) :
    oauthStep net entry AUTH_MODE.MC_REFRESH =
      (Except.ok (none, entry), []) := by
  simp [oauthStep]

/-- The OAuth step outside `MC_REFRESH` mode when the token endpoint fails. -/
theorem oauthStep_not_mc_error (net : MicrosoftEndpoints) (entry : String)
    (mode : AUTH_MODE) (c : MicrosoftErrorCode)
    (h : mode ≠ AUTH_MODE.MC_REFRESH)
    (he : net.getAccessToken entry (decide (mode = AUTH_MODE.MS_REFRESH)) =
      MicrosoftResponse.error c) :
    oauthStep net entry mode =
      (Except.error (microsoftErrorDisplayable c), [NetCall.oauthToken]) := by
  rw [oauthStep, if_pos h, he]

/-- The OAuth step outside `MC_REFRESH` mode when the token endpoint
succeeds. -/
theorem oauthStep_not_mc_success (net : MicrosoftEndpoints) (entry : String)
    (mode : AUTH_MODE) (tp : TokenPair)
    (h : mode ≠ AUTH_MODE.MC_REFRESH)
    (he : net.getAccessToken entry (decide (mode = AUTH_MODE.MS_REFRESH)) =
      MicrosoftResponse.success tp) :
    oauthStep net entry mode =
      (Except.ok (some tp, tp.access_token), [NetCall.oauthToken]) := by
  rw [oauthStep, if_pos h, he]

/-- The OAuth step's trace is `[]` or the single OAuth call, and it is `[]`
in `MC_REFRESH` mode. -/
theorem oauthStep_trace (net : MicrosoftEndpoints) (entry : String)
    (mode : AUTH_MODE) :
    ((oauthStep net entry mode).2 = [] ∨
       (oauthStep net entry mode).2 = [NetCall.oauthToken]) ∧
      (mode = AUTH_MODE.MC_REFRESH → (oauthStep net entry mode).2 = []) := by
  constructor
  · rw [oauthStep]
    by_cases h : mode ≠ AUTH_MODE.MC_REFRESH
    · rw [if_pos h]
      cases net.getAccessToken entry (decide (mode = AUTH_MODE.MS_REFRESH)) <;> simp
    · rw [if_neg h]
      simp
  · intro hm
    subst hm
    simp [oauthStep]

/-- The downstream trace is one of the four prefixes of the full step
list. -/
theorem downstreamSteps_trace_cases (net : MicrosoftEndpoints) (raw : String) :
    (downstreamSteps net raw).2 = [NetCall.xblToken] ∨
      (downstreamSteps net raw).2 = [NetCall.xblToken, NetCall.xstsToken] ∨
      (downstreamSteps net raw).2 =
        [NetCall.xblToken, NetCall.xstsToken, NetCall.mcToken] ∨
      (downstreamSteps net raw).2 =
        [NetCall.xblToken, NetCall.xstsToken, NetCall.mcToken,
         NetCall.mcProfile] := by
  unfold downstreamSteps
  (repeat' split) <;> simp

/-- The downstream trace never contains a flow-entry marker nor an OAuth
token call. -/
theorem downstreamSteps_trace (net : MicrosoftEndpoints) (raw : String) :
    (∀ m, NetCall.flowEntry m ∉ (downstreamSteps net raw).2) ∧
      NetCall.oauthToken ∉ (downstreamSteps net raw).2 := by
  rcases downstreamSteps_trace_cases net raw with h | h | h | h <;>
    rw [h] <;> exact ⟨fun m => by simp, by simp⟩

/-- The flow's trace starts with its own entry marker; the rest of the trace
holds no entry marker, and holds no OAuth call when the mode is
`MC_REFRESH`. -/
theorem fullFlow_trace_shape (net : MicrosoftEndpoints) (entry : String)
    (mode : AUTH_MODE) :
    ∃ rest, (fullMicrosoftAuthFlow net entry mode).2 =
        NetCall.flowEntry mode :: rest ∧
      (∀ m, NetCall.flowEntry m ∉ rest) ∧
      (mode = AUTH_MODE.MC_REFRESH → NetCall.oauthToken ∉ rest) := by
  have h0 := oauthStep_trace net entry mode
  rcases hos : oauthStep net entry mode with ⟨r, tr0⟩
  rw [hos] at h0
  simp only at h0
  have htr0 : (∀ m, NetCall.flowEntry m ∉ tr0) ∧
      (mode = AUTH_MODE.MC_REFRESH → NetCall.oauthToken ∉ tr0) := by
    rcases h0 with ⟨h01 | h01, h02⟩
    · subst h01
      exact ⟨fun m => by simp, fun _ => by simp⟩
    · subst h01
      refine ⟨fun m => by simp, fun hm => ?_⟩
      have := h02 hm
      simp at this
  rcases r with e | ⟨acc, raw⟩
  · refine ⟨tr0, ?_, htr0.1, htr0.2⟩
    simp only [fullMicrosoftAuthFlow, hos]
  · have hds := downstreamSteps_trace net raw
    rcases hds2 : downstreamSteps net raw with ⟨r2, tr2⟩
    rw [hds2] at hds
    simp only at hds
    have hcat : (∀ m, NetCall.flowEntry m ∉ tr0 ++ tr2) ∧
        (mode = AUTH_MODE.MC_REFRESH → NetCall.oauthToken ∉ tr0 ++ tr2) := by
      constructor
      · intro m
        simp only [List.mem_append]
        rintro (h | h)
        · exact htr0.1 m h
        · exact hds.1 m h
      · intro hm
        simp only [List.mem_append]
        rintro (h | h)
        · exact htr0.2 hm h
        · exact hds.2 h
    rcases r2 with e2 | ⟨xbl, xsts, mcTok, prof⟩
    · refine ⟨tr0 ++ tr2, ?_, hcat.1, hcat.2⟩
      simp only [fullMicrosoftAuthFlow, hos, hds2]
    · refine ⟨tr0 ++ tr2, ?_, hcat.1, hcat.2⟩
      simp only [fullMicrosoftAuthFlow, hos, hds2]

/-- Fresh game-service token: `true` immediately, no network, no mutation. -/
theorem validateMs_fresh (net : MicrosoftEndpoints) (now : Int)
    (st : MsStoreState) (h : ¬ now ≥ st.selectedAccount.expiresAt) :
    validateSelectedMicrosoftAccount net now st = (true, st, []) := by
  simp only [validateSelectedMicrosoftAccount]
  rw [if_pos h]

/-- Both tokens stale, `MS_REFRESH` flow fails: `false`, store untouched. -/
theorem validateMs_msPath_error (net : MicrosoftEndpoints) (now : Int)
    (st : MsStoreState) (e : DisplayableError) (tr : List NetCall)
    (h1 : now ≥ st.selectedAccount.expiresAt)
    (h2 : now ≥ st.selectedAccount.microsoft.expires_at)
    (hf : fullMicrosoftAuthFlow net st.selectedAccount.microsoft.refresh_token
      AUTH_MODE.MS_REFRESH = (Except.error e, tr)) :
    validateSelectedMicrosoftAccount net now st = (false, st, tr) := by
  simp only [validateSelectedMicrosoftAccount]
  rw [if_neg (not_not_intro h1), if_pos h2, hf]

/-- Both tokens stale, `MS_REFRESH` flow succeeds but carries no OAuth pair
(impossible in that mode): the JS `TypeError` is caught, `false`, store
untouched. -/
theorem validateMs_msPath_ok_none (net : MicrosoftEndpoints) (now : Int)
    (st : MsStoreState) (res : FullAuthResult) (tr : List NetCall)
    (h1 : now ≥ st.selectedAccount.expiresAt)
    (h2 : now ≥ st.selectedAccount.microsoft.expires_at)
    (hf : fullMicrosoftAuthFlow net st.selectedAccount.microsoft.refresh_token
      AUTH_MODE.MS_REFRESH = (Except.ok res, tr))
    (hacc : res.accessToken = none) :
    validateSelectedMicrosoftAccount net now st = (false, st, tr) := by
  simp only [validateSelectedMicrosoftAccount]
  rw [if_neg (not_not_intro h1), if_pos h2]
  simp only [hf, hacc]

/-- Both tokens stale, `MS_REFRESH` flow succeeds: both expiry fields are
re-stamped with the margin function, the record is updated and saved,
result `true`. -/
theorem validateMs_msPath_ok (net : MicrosoftEndpoints) (now : Int)
    (st : MsStoreState) (res : FullAuthResult) (tr : List NetCall)
    (tp : TokenPair)
    (h1 : now ≥ st.selectedAccount.expiresAt)
    (h2 : now ≥ st.selectedAccount.microsoft.expires_at)
    (hf : fullMicrosoftAuthFlow net st.selectedAccount.microsoft.refresh_token
      AUTH_MODE.MS_REFRESH = (Except.ok res, tr))
    (hacc : res.accessToken = some tp) :
    validateSelectedMicrosoftAccount net now st =
      (true,
       configSave (updateMicrosoftAuthAccount st st.selectedAccount.uuid
         res.mcToken.access_token tp.access_token tp.refresh_token
         (calculateExpiryDate now tp.expires_in)
         (calculateExpiryDate now res.mcToken.expires_in)),
       tr) := by
  simp only [validateSelectedMicrosoftAccount]
  rw [if_neg (not_not_intro h1), if_pos h2]
  simp only [hf, hacc]

/-- Only the game token stale, `MC_REFRESH` flow fails: `false`, store
untouched. -/
theorem validateMs_mcPath_error (net : MicrosoftEndpoints) (now : Int)
    (st : MsStoreState) (e : DisplayableError) (tr : List NetCall)
    (h1 : now ≥ st.selectedAccount.expiresAt)
    (h2 : ¬ now ≥ st.selectedAccount.microsoft.expires_at)
    (hf : fullMicrosoftAuthFlow net st.selectedAccount.microsoft.access_token
      AUTH_MODE.MC_REFRESH = (Except.error e, tr)) :
    validateSelectedMicrosoftAccount net now st = (false, st, tr) := by
  simp only [validateSelectedMicrosoftAccount]
  rw [if_neg (not_not_intro h1), if_neg h2, hf]

/-- Only the game token stale, `MC_REFRESH` flow succeeds: the game-token
expiry is re-stamped with the margin function, the OAuth fields are carried
over unchanged, the record is updated and saved, result `true`. -/
theorem validateMs_mcPath_ok (net : MicrosoftEndpoints) (now : Int)
    (st : MsStoreState) (res : FullAuthResult) (tr : List NetCall)
    (h1 : now ≥ st.selectedAccount.expiresAt)
    (h2 : ¬ now ≥ st.selectedAccount.microsoft.expires_at)
    (hf : fullMicrosoftAuthFlow net st.selectedAccount.microsoft.access_token
      AUTH_MODE.MC_REFRESH = (Except.ok res, tr)) :
    validateSelectedMicrosoftAccount net now st =
      (true,
       configSave (updateMicrosoftAuthAccount st st.selectedAccount.uuid
         res.mcToken.access_token st.selectedAccount.microsoft.access_token
         st.selectedAccount.microsoft.refresh_token
         st.selectedAccount.microsoft.expires_at
         (calculateExpiryDate now res.mcToken.expires_in)),
       tr) := by
  simp only [validateSelectedMicrosoftAccount]
  rw [if_neg (not_not_intro h1), if_neg h2]
  simp only [hf]

/-- In the both-stale path the validator's trace is the `MS_REFRESH` flow's
trace. -/
theorem validateMs_msPath_trace (net : MicrosoftEndpoints) (now : Int)
    (st : MsStoreState)
    (h1 : now ≥ st.selectedAccount.expiresAt)
    (h2 : now ≥ st.selectedAccount.microsoft.expires_at) :
    (validateSelectedMicrosoftAccount net now st).2.2 =
      (fullMicrosoftAuthFlow net st.selectedAccount.microsoft.refresh_token
        AUTH_MODE.MS_REFRESH).2 := by
  rcases hf : fullMicrosoftAuthFlow net st.selectedAccount.microsoft.refresh_token
      AUTH_MODE.MS_REFRESH with ⟨r, tr⟩
  rcases r with e | res
  · rw [validateMs_msPath_error net now st e tr h1 h2 hf]
  · rcases hacc : res.accessToken with _ | tp
    · rw [validateMs_msPath_ok_none net now st res tr h1 h2 hf hacc]
    · rw [validateMs_msPath_ok net now st res tr tp h1 h2 hf hacc]

/-- In the game-token-only-stale path the validator's trace is the
`MC_REFRESH` flow's trace. -/
theorem validateMs_mcPath_trace (net : MicrosoftEndpoints) (now : Int)
    (st : MsStoreState)
    (h1 : now ≥ st.selectedAccount.expiresAt)
    (h2 : ¬ now ≥ st.selectedAccount.microsoft.expires_at) :
    (validateSelectedMicrosoftAccount net now st).2.2 =
      (fullMicrosoftAuthFlow net st.selectedAccount.microsoft.access_token
        AUTH_MODE.MC_REFRESH).2 := by
  rcases hf : fullMicrosoftAuthFlow net st.selectedAccount.microsoft.access_token
      AUTH_MODE.MC_REFRESH with ⟨r, tr⟩
  rcases r with e | res
  · rw [validateMs_mcPath_error net now st e tr h1 h2 hf]
  · rw [validateMs_mcPath_ok net now st res tr h1 h2 hf]

end AuthManager

namespace AuthManager

/-! ## Theorems: ExpiryPolicy (C3, C7) -/

/-- C3 counterexample: the claim asserts `computeExpiry` is clamped so it
never underflows past `now` when `lifetime < margin`.  At `now = 0`,
`lifetime = 0 < 10` the code yields `-10000 < 0`, refuting the clamp. -/
theorem calculateExpiryDate_no_clamp_counterexample :
    (0 : Int) < 10 ∧ calculateExpiryDate 0 0 = -10000 ∧
      ¬ (calculateExpiryDate 0 0 ≥ 0) := by
  refine ⟨by norm_num, by norm_num [calculateExpiryDate], by norm_num [calculateExpiryDate]⟩

/-- C3 amended: `calculateExpiryDate now s = now + (s - 10) * 1000` with
margin 10, and there is NO clamping: when the lifetime is below the margin
the result underflows strictly below `now`. -/
theorem calculateExpiryDate_formula_no_clamp (now s : Int) :
    calculateExpiryDate now s = now + (s - 10) * 1000 ∧
      (s < 10 → calculateExpiryDate now s < now) := by
  constructor
  · rfl
  · intro hs
    unfold calculateExpiryDate
    nlinarith

/-- Witness for `calculateExpiryDate_formula_no_clamp` at `now = 5`, `s = 3`. -/
theorem calculateExpiryDate_formula_no_clamp_witness :
    calculateExpiryDate 5 3 = 5 + (3 - 10) * 1000 ∧
      ((3 : Int) < 10 → calculateExpiryDate 5 3 < 5) :=
  calculateExpiryDate_formula_no_clamp 5 3

/-- C7: `calculateExpiryDate` is a pure function of its two arguments; in the
implementation's millisecond-consistent units it never exceeds
`now + lifetime`, for `lifetime ≥ 10` it is exactly `now + (lifetime-10)*1000`,
and the spec's example `computeExpiry(1000, 3600) = 1000 + 3590000` holds. -/
theorem calculateExpiryDate_spec (now s : Int) :
    calculateExpiryDate now s ≤ now + s * 1000 ∧
      (s ≥ 10 → calculateExpiryDate now s = now + (s - 10) * 1000) ∧
      calculateExpiryDate 1000 3600 = 1000 + 3590000 := by
  refine ⟨?_, fun _ => rfl, by norm_num [calculateExpiryDate]⟩
  unfold calculateExpiryDate
  nlinarith

/-- Witness for `calculateExpiryDate_spec` at `now = 1000`, `s = 3600`. -/
theorem calculateExpiryDate_spec_witness :
    calculateExpiryDate 1000 3600 ≤ 1000 + 3600 * 1000 ∧
      ((3600 : Int) ≥ 10 → calculateExpiryDate 1000 3600 = 1000 + (3600 - 10) * 1000) ∧
      calculateExpiryDate 1000 3600 = 1000 + 3590000 :=
  calculateExpiryDate_spec 1000 3600

/-! ## Theorems: the Microsoft validator (C1, C2) -/

/-- C1: a validation in which the chained flow fails resolves `false` with
the stored record and persist counter completely unmodified, in both the
`MS_REFRESH` and the `MC_REFRESH` path; and whenever validation resolves
`false` the store is unchanged — persistence happens only on full-chain
success. -/
theorem validateSelectedMicrosoftAccount_atomic (net : MicrosoftEndpoints)
    (now : Int) (st : MsStoreState) :
    ((validateSelectedMicrosoftAccount net now st).1 = false →
       (validateSelectedMicrosoftAccount net now st).2.1 = st) ∧
    (now ≥ st.selectedAccount.expiresAt →
      now ≥ st.selectedAccount.microsoft.expires_at →
      ∀ e tr,
        fullMicrosoftAuthFlow net st.selectedAccount.microsoft.refresh_token
            AUTH_MODE.MS_REFRESH = (Except.error e, tr) →
        validateSelectedMicrosoftAccount net now st = (false, st, tr)) ∧
    (now ≥ st.selectedAccount.expiresAt →
      ¬ now ≥ st.selectedAccount.microsoft.expires_at →
      ∀ e tr,
        fullMicrosoftAuthFlow net st.selectedAccount.microsoft.access_token
            AUTH_MODE.MC_REFRESH = (Except.error e, tr) →
        validateSelectedMicrosoftAccount net now st = (false, st, tr)) := by
  refine ⟨?_, ?_, ?_⟩
  · intro hb
    by_cases h1 : now ≥ st.selectedAccount.expiresAt
    · by_cases h2 : now ≥ st.selectedAccount.microsoft.expires_at
      · rcases hf : fullMicrosoftAuthFlow net
            st.selectedAccount.microsoft.refresh_token AUTH_MODE.MS_REFRESH
          with ⟨r, tr⟩
        rcases r with e | res
        · rw [validateMs_msPath_error net now st e tr h1 h2 hf]
        · rcases hacc : res.accessToken with _ | tp
          · rw [validateMs_msPath_ok_none net now st res tr h1 h2 hf hacc]
          · rw [validateMs_msPath_ok net now st res tr tp h1 h2 hf hacc] at hb
            simp at hb
      · rcases hf : fullMicrosoftAuthFlow net
            st.selectedAccount.microsoft.access_token AUTH_MODE.MC_REFRESH
          with ⟨r, tr⟩
        rcases r with e | res
        · rw [validateMs_mcPath_error net now st e tr h1 h2 hf]
        · rw [validateMs_mcPath_ok net now st res tr h1 h2 hf] at hb
          simp at hb
    · rw [validateMs_fresh net now st h1] at hb
      simp at hb
  · intro h1 h2 e tr hf
    exact validateMs_msPath_error net now st e tr h1 h2 hf
  · intro h1 h2 e tr hf
    exact validateMs_mcPath_error net now st e tr h1 h2 hf

/-- Witness for `validateSelectedMicrosoftAccount_atomic`: a stale account
whose `MS_REFRESH` flow fails at the OAuth endpoint; validation yields
`false` and the store is returned unchanged. -/
theorem validateSelectedMicrosoftAccount_atomic_witness :
    validateSelectedMicrosoftAccount netFailOauth 10 demoStaleStore =
      (false, demoStaleStore,
       [NetCall.flowEntry AUTH_MODE.MS_REFRESH, NetCall.oauthToken]) :=
  (validateSelectedMicrosoftAccount_atomic netFailOauth 10 demoStaleStore).2.1
    (by decide) (by decide)
    (microsoftErrorDisplayable MicrosoftErrorCode.UNKNOWN)
    [NetCall.flowEntry AUTH_MODE.MS_REFRESH, NetCall.oauthToken] rfl

/-- C2: with the game-service token expired, the validator selects the
refresh strategy by the OAuth expiry: OAuth also expired → the flow runs in
`MS_REFRESH` mode exactly once; OAuth still valid → the flow runs in
`MC_REFRESH` mode exactly once and the OAuth token endpoint is never
called. -/
theorem validateSelectedMicrosoftAccount_refresh_strategy
    (net : MicrosoftEndpoints) (now : Int) (st : MsStoreState)
    (h1 : now ≥ st.selectedAccount.expiresAt) :
    (now ≥ st.selectedAccount.microsoft.expires_at →
       ((validateSelectedMicrosoftAccount net now st).2.2.count
           (NetCall.flowEntry AUTH_MODE.MS_REFRESH) = 1 ∧
        ∀ m, m ≠ AUTH_MODE.MS_REFRESH →
          NetCall.flowEntry m ∉
            (validateSelectedMicrosoftAccount net now st).2.2)) ∧
    (¬ now ≥ st.selectedAccount.microsoft.expires_at →
       ((validateSelectedMicrosoftAccount net now st).2.2.count
           (NetCall.flowEntry AUTH_MODE.MC_REFRESH) = 1 ∧
        (∀ m, m ≠ AUTH_MODE.MC_REFRESH →
          NetCall.flowEntry m ∉
            (validateSelectedMicrosoftAccount net now st).2.2) ∧
        NetCall.oauthToken ∉
          (validateSelectedMicrosoftAccount net now st).2.2)) := by
  constructor
  · intro h2
    rw [validateMs_msPath_trace net now st h1 h2]
    obtain ⟨rest, hrest, hnf, _⟩ := fullFlow_trace_shape net
      st.selectedAccount.microsoft.refresh_token AUTH_MODE.MS_REFRESH
    rw [hrest]
    have h0 : rest.count (NetCall.flowEntry AUTH_MODE.MS_REFRESH) = 0 :=
      List.count_eq_zero.mpr (hnf _)
    refine ⟨by simp [List.count_cons, h0], ?_⟩
    intro m hm
    simp only [List.mem_cons]
    rintro (h | h)
    · exact hm (by injection h)
    · exact hnf m h
  · intro h2
    rw [validateMs_mcPath_trace net now st h1 h2]
    obtain ⟨rest, hrest, hnf, hoa⟩ := fullFlow_trace_shape net
      st.selectedAccount.microsoft.access_token AUTH_MODE.MC_REFRESH
    rw [hrest]
    have h0 : rest.count (NetCall.flowEntry AUTH_MODE.MC_REFRESH) = 0 :=
      List.count_eq_zero.mpr (hnf _)
    refine ⟨by simp [List.count_cons, h0], ?_, ?_⟩
    · intro m hm
      simp only [List.mem_cons]
      rintro (h | h)
      · exact hm (by injection h)
      · exact hnf m h
    · simp only [List.mem_cons]
      rintro (h | h)
      · exact absurd h (by simp)
      · exact absurd h (hoa rfl)

/-- Witness for `validateSelectedMicrosoftAccount_refresh_strategy`: an
account with only the game token expired; the `MC_REFRESH` flow is entered
exactly once and no OAuth call occurs. -/
theorem validateSelectedMicrosoftAccount_refresh_strategy_witness :
    (validateSelectedMicrosoftAccount demoNet 10 demoMcStaleStore).2.2.count
        (NetCall.flowEntry AUTH_MODE.MC_REFRESH) = 1 ∧
      (∀ m, m ≠ AUTH_MODE.MC_REFRESH →
        NetCall.flowEntry m ∉
          (validateSelectedMicrosoftAccount demoNet 10 demoMcStaleStore).2.2) ∧
      NetCall.oauthToken ∉
        (validateSelectedMicrosoftAccount demoNet 10 demoMcStaleStore).2.2 :=
  (validateSelectedMicrosoftAccount_refresh_strategy demoNet 10 demoMcStaleStore
    (by decide)).2 (by decide)

/-! ## Theorems: the chained flow (C6) -/

/-- C6: the five-step chain is strictly sequential and short-circuits on the
first failing step — the trace ends at the failing endpoint and the
normalized error code of that endpoint is propagated unchanged; on success
the result bundles every step payload plus the raw OAuth pair, and in
`MC_REFRESH` mode the OAuth step contributes no call and a `none` pair. -/
theorem fullMicrosoftAuthFlow_chain (net : MicrosoftEndpoints)
    (entry : String) (mode : AUTH_MODE) :
    oauthStep net entry AUTH_MODE.MC_REFRESH = (Except.ok (none, entry), []) ∧
    (∀ c, mode ≠ AUTH_MODE.MC_REFRESH →
      net.getAccessToken entry (decide (mode = AUTH_MODE.MS_REFRESH)) =
        MicrosoftResponse.error c →
      fullMicrosoftAuthFlow net entry mode =
        (Except.error (microsoftErrorDisplayable c),
         [NetCall.flowEntry mode, NetCall.oauthToken])) ∧
    (∀ acc raw tr0 c,
      oauthStep net entry mode = (Except.ok (acc, raw), tr0) →
      net.getXBLToken raw = MicrosoftResponse.error c →
      fullMicrosoftAuthFlow net entry mode =
        (Except.error (microsoftErrorDisplayable c),
         NetCall.flowEntry mode :: (tr0 ++ [NetCall.xblToken]))) ∧
    (∀ acc raw tr0 xbl c,
      oauthStep net entry mode = (Except.ok (acc, raw), tr0) →
      net.getXBLToken raw = MicrosoftResponse.success xbl →
      net.getXSTSToken xbl = MicrosoftResponse.error c →
      fullMicrosoftAuthFlow net entry mode =
        (Except.error (microsoftErrorDisplayable c),
         NetCall.flowEntry mode ::
           (tr0 ++ [NetCall.xblToken, NetCall.xstsToken]))) ∧
    (∀ acc raw tr0 xbl xsts c,
      oauthStep net entry mode = (Except.ok (acc, raw), tr0) →
      net.getXBLToken raw = MicrosoftResponse.success xbl →
      net.getXSTSToken xbl = MicrosoftResponse.success xsts →
      net.getMCAccessToken xsts = MicrosoftResponse.error c →
      fullMicrosoftAuthFlow net entry mode =
        (Except.error (microsoftErrorDisplayable c),
         NetCall.flowEntry mode ::
           (tr0 ++ [NetCall.xblToken, NetCall.xstsToken, NetCall.mcToken]))) ∧
    (∀ acc raw tr0 xbl xsts mcTok c,
      oauthStep net entry mode = (Except.ok (acc, raw), tr0) →
      net.getXBLToken raw = MicrosoftResponse.success xbl →
      net.getXSTSToken xbl = MicrosoftResponse.success xsts →
      net.getMCAccessToken xsts = MicrosoftResponse.success mcTok →
      net.getMCProfile mcTok.access_token = MicrosoftResponse.error c →
      fullMicrosoftAuthFlow net entry mode =
        (Except.error (microsoftErrorDisplayable c),
         NetCall.flowEntry mode ::
           (tr0 ++ [NetCall.xblToken, NetCall.xstsToken, NetCall.mcToken,
                    NetCall.mcProfile]))) ∧
    (∀ acc raw tr0 xbl xsts mcTok prof,
      oauthStep net entry mode = (Except.ok (acc, raw), tr0) →
      net.getXBLToken raw = MicrosoftResponse.success xbl →
      net.getXSTSToken xbl = MicrosoftResponse.success xsts →
      net.getMCAccessToken xsts = MicrosoftResponse.success mcTok →
      net.getMCProfile mcTok.access_token = MicrosoftResponse.success prof →
      fullMicrosoftAuthFlow net entry mode =
        (Except.ok ⟨acc, raw, xbl, xsts, mcTok, prof⟩,
         NetCall.flowEntry mode ::
           (tr0 ++ [NetCall.xblToken, NetCall.xstsToken, NetCall.mcToken,
                    NetCall.mcProfile]))) := by
  refine ⟨oauthStep_mc net entry, ?_, ?_, ?_, ?_, ?_, ?_⟩
  · intro c h he
    simp only [fullMicrosoftAuthFlow, oauthStep_not_mc_error net entry mode c h he]
  · intro acc raw tr0 c hos hx
    simp only [fullMicrosoftAuthFlow, hos, downstreamSteps, hx]
  · intro acc raw tr0 xbl c hos hx hs
    simp only [fullMicrosoftAuthFlow, hos, downstreamSteps, hx, hs]
  · intro acc raw tr0 xbl xsts c hos hx hs hm
    simp only [fullMicrosoftAuthFlow, hos, downstreamSteps, hx, hs, hm]
  · intro acc raw tr0 xbl xsts mcTok c hos hx hs hm hp
    simp only [fullMicrosoftAuthFlow, hos, downstreamSteps, hx, hs, hm, hp]
  · intro acc raw tr0 xbl xsts mcTok prof hos hx hs hm hp
    simp only [fullMicrosoftAuthFlow, hos, downstreamSteps, hx, hs, hm, hp]

/-- Witness for `fullMicrosoftAuthFlow_chain`: endpoints failing at the XSTS
step; the flow stops there and returns that step's normalized code. -/
theorem fullMicrosoftAuthFlow_chain_witness :
    fullMicrosoftAuthFlow netFailXsts "code" AUTH_MODE.FULL =
      (Except.error (microsoftErrorDisplayable (MicrosoftErrorCode.OTHER 7)),
       NetCall.flowEntry AUTH_MODE.FULL ::
         ([NetCall.oauthToken] ++ [NetCall.xblToken, NetCall.xstsToken])) :=
  (fullMicrosoftAuthFlow_chain netFailXsts "code" AUTH_MODE.FULL).2.2.2.1
    (some demoPair) "msAccess" [NetCall.oauthToken] "xblTok"
    (MicrosoftErrorCode.OTHER 7) rfl rfl rfl

/-! ## Theorems: round-trip and the expiry-stamp invariant (C8, C9) -/

/-- C8 counterexample: with a game-token lifetime of 10 s (not exceeding the
margin), the account a successful `Full` flow persists is already expired,
so immediately validating it performs network calls — refuting the claim
that validation after creation never touches the network. -/
theorem addThenValidate_network_counterexample :
    (addMicrosoftAccount demoNetShortLived "code" 0).1 = Except.ok msAcctShort ∧
      (validateSelectedMicrosoftAccount demoNetShortLived 0 ⟨msAcctShort, 0⟩).2.2 ≠
        [] := by
  constructor
  · rfl
  · decide

/-- C8 amended: an account created by a successful `Full` flow whose
game-token lifetime exceeds the 10-second margin, validated immediately
(same `now`), yields `true` with no network call at all — under any
endpoints whatsoever. -/
theorem addMicrosoftAccount_roundTrip (net : MicrosoftEndpoints)
    (authCode : String) (now : Int) (res : FullAuthResult) (tr : List NetCall)
    (tp : TokenPair)
    (hflow : fullMicrosoftAuthFlow net authCode AUTH_MODE.FULL =
      (Except.ok res, tr))
    (hacc : res.accessToken = some tp)
    (hlife : 11 ≤ res.mcToken.expires_in) :
    ∃ acct, addMicrosoftAccount net authCode now = (Except.ok acct, tr) ∧
      ∀ net2 sc, validateSelectedMicrosoftAccount net2 now ⟨acct, sc⟩ =
        (true, ⟨acct, sc⟩, []) := by
  refine ⟨addMicrosoftAuthAccount res.mcProfile.id res.mcToken.access_token
      res.mcProfile.name (calculateExpiryDate now res.mcToken.expires_in)
      tp.access_token tp.refresh_token (calculateExpiryDate now tp.expires_in),
    ?_, ?_⟩
  · simp only [addMicrosoftAccount, hflow, hacc]
  · intro net2 sc
    apply validateMs_fresh
    simp only [addMicrosoftAuthAccount, calculateExpiryDate]
    push_neg
    nlinarith

/-- Witness for `addMicrosoftAccount_roundTrip` on the all-success endpoints
with a one-day game-token lifetime. -/
theorem addMicrosoftAccount_roundTrip_witness :
    ∃ acct, addMicrosoftAccount demoNet "code" 0 = (Except.ok acct, demoFullTrace) ∧
      ∀ net2 sc, validateSelectedMicrosoftAccount net2 0 ⟨acct, sc⟩ =
        (true, ⟨acct, sc⟩, []) :=
  addMicrosoftAccount_roundTrip demoNet "code" 0 demoFullResult demoFullTrace
    demoPair rfl rfl (by decide)

/-- C9: every operation that writes the account record stamps `expiresAt`
and `msExpiresAt` through `calculateExpiryDate` at the current instant (or,
in the `MC_REFRESH` path, carries the OAuth expiry over unchanged) — never
a server-reported raw expiry. -/
theorem expiry_fields_margin_stamped (net : MicrosoftEndpoints) (now : Int) :
    (∀ authCode res tr tp,
       fullMicrosoftAuthFlow net authCode AUTH_MODE.FULL = (Except.ok res, tr) →
       res.accessToken = some tp →
       addMicrosoftAccount net authCode now =
         (Except.ok (addMicrosoftAuthAccount res.mcProfile.id
             res.mcToken.access_token res.mcProfile.name
             (calculateExpiryDate now res.mcToken.expires_in)
             tp.access_token tp.refresh_token
             (calculateExpiryDate now tp.expires_in)), tr)) ∧
    (∀ st b st' tr,
       validateSelectedMicrosoftAccount net now st = (b, st', tr) →
       st' = st ∨
       (∃ res tr' tp,
          fullMicrosoftAuthFlow net st.selectedAccount.microsoft.refresh_token
              AUTH_MODE.MS_REFRESH = (Except.ok res, tr') ∧
          res.accessToken = some tp ∧
          st'.selectedAccount.expiresAt =
            calculateExpiryDate now res.mcToken.expires_in ∧
          st'.selectedAccount.microsoft.expires_at =
            calculateExpiryDate now tp.expires_in) ∨
       (∃ res tr',
          fullMicrosoftAuthFlow net st.selectedAccount.microsoft.access_token
              AUTH_MODE.MC_REFRESH = (Except.ok res, tr') ∧
          st'.selectedAccount.expiresAt =
            calculateExpiryDate now res.mcToken.expires_in ∧
          st'.selectedAccount.microsoft.expires_at =
            st.selectedAccount.microsoft.expires_at)) := by
  constructor
  · intro authCode res tr tp hflow hacc
    simp only [addMicrosoftAccount, hflow, hacc]
  · intro st b st' tr h
    by_cases h1 : now ≥ st.selectedAccount.expiresAt
    · by_cases h2 : now ≥ st.selectedAccount.microsoft.expires_at
      · rcases hf : fullMicrosoftAuthFlow net
            st.selectedAccount.microsoft.refresh_token AUTH_MODE.MS_REFRESH
          with ⟨r, tr'⟩
        rcases r with e | res
        · left
          rw [validateMs_msPath_error net now st e tr' h1 h2 hf] at h
          simp only [Prod.mk.injEq] at h
          exact h.2.1.symm
        · rcases hacc : res.accessToken with _ | tp
          · left
            rw [validateMs_msPath_ok_none net now st res tr' h1 h2 hf hacc] at h
            simp only [Prod.mk.injEq] at h
            exact h.2.1.symm
          · right; left
            rw [validateMs_msPath_ok net now st res tr' tp h1 h2 hf hacc] at h
            simp only [Prod.mk.injEq] at h
            refine ⟨res, tr', tp, rfl, hacc, ?_, ?_⟩ <;>
              rw [← h.2.1] <;>
              simp [configSave, updateMicrosoftAuthAccount]
      · rcases hf : fullMicrosoftAuthFlow net
            st.selectedAccount.microsoft.access_token AUTH_MODE.MC_REFRESH
          with ⟨r, tr'⟩
        rcases r with e | res
        · left
          rw [validateMs_mcPath_error net now st e tr' h1 h2 hf] at h
          simp only [Prod.mk.injEq] at h
          exact h.2.1.symm
        · right; right
          rw [validateMs_mcPath_ok net now st res tr' h1 h2 hf] at h
          simp only [Prod.mk.injEq] at h
          refine ⟨res, tr', rfl, ?_, ?_⟩ <;>
            rw [← h.2.1] <;>
            simp [configSave, updateMicrosoftAuthAccount]
    · left
      rw [validateMs_fresh net now st h1] at h
      simp only [Prod.mk.injEq] at h
      exact h.2.1.symm

/-- Witness for `expiry_fields_margin_stamped`: account creation on the
all-success endpoints at `now = 10` persists margin-stamped expiries. -/
theorem expiry_fields_margin_stamped_witness :
    addMicrosoftAccount demoNet "code" 10 =
      (Except.ok (addMicrosoftAuthAccount demoFullResult.mcProfile.id
          demoFullResult.mcToken.access_token demoFullResult.mcProfile.name
          (calculateExpiryDate 10 demoFullResult.mcToken.expires_in)
          demoPair.access_token demoPair.refresh_token
          (calculateExpiryDate 10 demoPair.expires_in)), demoFullTrace) :=
  (expiry_fields_margin_stamped demoNet 10).1 "code" demoFullResult
    demoFullTrace demoPair rfl rfl

/-! ## Theorems: password flow and dispatch (C4, C5, C10) -/

/-- C4: the claimed resumable second-factor contract does not exist in the
code.  With a provider whose first call reports `pending`/`requires2fa` and
whose correct code `123456` would succeed, `addGalaxyQuestAccount` resumes
with the hardcoded empty-string code, gets a non-success result, and — since
`mojangErrorDisplayable`/`MojangErrorCode` are defined nowhere in the
module — rejects with a `ReferenceError` rather than a normalized
`InvalidCredentials` error. -/
theorem addGalaxyQuestAccount_2fa_stub :
    (login2fa "alice" "pw" (some "123456")).status = "success" ∧
      addGalaxyQuestAccount login2fa "alice" "pw" =
        Except.error (JsError.referenceError "MojangErrorCode") := by
  constructor
  · rfl
  · rfl

/-- C5: `validateSelected` routes any non-Microsoft selected account to
`validateSelectedGalaxyquestAccount`, an identifier the module never
defines, so instead of resolving a boolean the promise rejects with a
`ReferenceError` (evaluated here at a concrete password account). -/
theorem validateSelected_password_route_undefined :
    validateSelected demoNet 0
        (SelectedAccount.galaxyquestAccount demoPasswordAccount) 0 =
      Except.error (JsError.referenceError "validateSelectedGalaxyquestAccount") :=
  rfl

/-- C10: when the session-validate call itself fails (response status not
SUCCESS), the password validator resolves with `undefined` — neither `true`
nor `false` — attempts no refresh, and leaves the store untouched. -/
theorem validateSelectedMojangAccount_endpoint_fault (net : MojangEndpoints)
    (st : MojangStoreState)
    (h : net.validateSession st.selectedAccount.accessToken st.clientToken =
      MojangResponse.error) :
    validateSelectedMojangAccount net st = (none, st, [MojangCall.validateCall]) := by
  simp only [validateSelectedMojangAccount, h]

/-- Witness for `validateSelectedMojangAccount_endpoint_fault` on endpoints
whose validate call fails. -/
theorem validateSelectedMojangAccount_endpoint_fault_witness :
    validateSelectedMojangAccount mojangNetFault demoMojangStore =
      (none, demoMojangStore, [MojangCall.validateCall]) :=
  validateSelectedMojangAccount_endpoint_fault mojangNetFault demoMojangStore rfl

end AuthManager
